import Mathlib

/-!
Shallow embedding of the iot-hub-go per-device security pipeline:
rate limiting (sliding-window and fixed-window), threshold anomaly
detection, behavioral baselining, and the quarantine lifecycle.

Conventions of the embedding:
* Go `time.Time` values are modelled as `Int` seconds since epoch;
  durations are `Int` seconds (`QUARANTINE_DURATION = 300`, windows = 60).
* Go `float64` sensor values are modelled as exact rationals `ℚ`;
  every comparison and the `(avg + x) / 2` moving average are the exact
  counterparts of the source expressions.
* Go maps keyed by device id are modelled as association lists with
  unique keys (`lookupA` / `insertA` / `eraseA`).
* Go format strings that build descriptions and quarantine reasons are
  modelled as tagged constructors carrying exactly the parameters the
  source interpolates (`AnomalyDesc`, `QReason`), with `reasonText`
  rendering the literal source string.
-/

/-- Anomaly types, from `internal/domain/entities` (`AnomalyType` constants). -/
inductive AnomalyType where
  | temperature
  | battery
  | accessAttempts
  | signalStrength
  | behaviorPattern
deriving DecidableEq, Repr

/-- The heterogeneous `Value interface{}` field of `entities.Anomaly`:
detectors store a float, an int, or a string. -/
inductive AnomalyValue where
  | f (q : ℚ)
  | i (n : Int)
  | s (t : String)
deriving DecidableEq, Repr

/-- Description format strings built by the detectors, as tagged constructors
carrying the parameters the Go `fmt.Sprintf` calls interpolate. -/
inductive AnomalyDesc where
  | tempExtreme (t : ℚ)
  | batteryCritical (b : ℚ)
  | multipleAccess (n : Int)
  | weakSignal (q : ℚ)
  | tempDrastic (t oldAvg : ℚ)
  | batteryDrop (b oldAvg : ℚ)
  | bruteForce (n : Int)
  | rateLimitExcess (n : Int)
deriving DecidableEq, Repr

/-- `entities.Anomaly` (ID/timestamp/severity derive from creation time and
are constant "medium"; the fields the pipeline logic reads are kept). -/
structure Anomaly where
  deviceID : String
  atype : AnomalyType
  description : AnomalyDesc
  value : AnomalyValue
deriving DecidableEq, Repr

/-- Quarantine reasons passed to `QuarantineDevice`, as tagged constructors
for the Go format strings. -/
inductive QReason where
  | rateLimitAbuse (n : Int)
  | invalidData
  | multipleAnomalies (n : Int)
deriving DecidableEq, Repr

/-- Renders a `QReason` as the literal string the Go source builds. -/
def reasonText : QReason → String
  | .rateLimitAbuse n => "rate limit abuse: " ++ toString n ++ " mensajes/minuto"
  | .invalidData => "datos inválidos"
  | .multipleAnomalies n => "múltiples anomalías detectadas (" ++ toString n ++ ")"

/-- `entities.SensorData` (= the monolith's `SensorData`): one decoded
telemetry message. -/
structure SensorData where
  deviceID : String
  deviceType : String := ""
  timestamp : Int
  securityLevel : String := ""
  temperature : ℚ := 0
  humidity : ℚ := 0
  motionDetected : Option Bool := none
  recording : Option Bool := none
  batteryLevel : ℚ := 0
  locked : Option Bool := none
  accessAttempts : Int := 0
  signalStrength : ℚ := 0
deriving DecidableEq, Repr

/-- Field-range validation failures raised by `SensorData.Validate`. -/
inductive VErr where
  | deviceID
  | timestamp
  | temperature
  | humidity
  | battery
  | signal
  | access
deriving DecidableEq, Repr

/-- `entities.SensorData.Validate` from
`internal/domain/entities/sensor_data.go`, with `now` the processing-time
`time.Now().Unix()`. Returns `none` on success. -/
def Validate (now : Int) (d : SensorData) : Option VErr :=
  if d.deviceID.length = 0 ∨ 50 < d.deviceID.length then some .deviceID
  else if d.timestamp < now - 3600 ∨ now + 3600 < d.timestamp then some .timestamp
  else if d.temperature ≠ 0 ∧ (d.temperature < -50 ∨ 100 < d.temperature) then some .temperature
  else if d.humidity ≠ 0 ∧ (d.humidity < 0 ∨ 100 < d.humidity) then some .humidity
  else if d.batteryLevel ≠ 0 ∧ (d.batteryLevel < 0 ∨ 100 < d.batteryLevel) then some .battery
  else if d.signalStrength ≠ 0 ∧ (d.signalStrength < 0 ∨ 100 < d.signalStrength) then some .signal
  else if d.accessAttempts < 0 ∨ 1000 < d.accessAttempts then some .access
  else none

/-- `SensorDataProcessor.detectAnomalies`: the stateless threshold detector. -/
def detectAnomalies (d : SensorData) : List Anomaly :=
  (if d.temperature ≠ 0 ∧ (50 < d.temperature ∨ d.temperature < -10) then
    [⟨d.deviceID, .temperature, .tempExtreme d.temperature, .f d.temperature⟩]
  else []) ++
  (if 0 < d.batteryLevel ∧ d.batteryLevel < 10 then
    [⟨d.deviceID, .battery, .batteryCritical d.batteryLevel, .f d.batteryLevel⟩]
  else []) ++
  (if 5 < d.accessAttempts then
    [⟨d.deviceID, .accessAttempts, .multipleAccess d.accessAttempts, .i d.accessAttempts⟩]
  else []) ++
  (if 0 < d.signalStrength ∧ d.signalStrength < 20 then
    [⟨d.deviceID, .signalStrength, .weakSignal d.signalStrength, .f d.signalStrength⟩]
  else [])

section AssocMap

variable {α : Type}

/-- Lookup in a Go map modelled as an association list. -/
def lookupA : List (String × α) → String → Option α
  | [], _ => none
  | p :: l, k => if p.1 = k then some p.2 else lookupA l k

/-- Delete a key from a Go map modelled as an association list. -/
def eraseA : List (String × α) → String → List (String × α)
  | [], _ => []
  | p :: l, k => if p.1 = k then eraseA l k else p :: eraseA l k

/-- Insert/overwrite a key in a Go map modelled as an association list. -/
def insertA (l : List (String × α)) (k : String) (v : α) : List (String × α) :=
  (k, v) :: eraseA l k

end AssocMap

/-- Quarantine duration: `QUARANTINE_DURATION = 5 * time.Minute`, in seconds. -/
def QUARANTINE_DURATION : Int := 300

namespace MemoryDeviceRepository

/-- The quarantine map `quarantinedDevices : map[string]time.Time` of
`MemoryDeviceRepository`, as an association list of entry timestamps. -/
abbrev QMap := List (String × Int)

/-- `MemoryDeviceRepository.QuarantineDevice`: unconditionally stamps the
device with the current time. -/
def QuarantineDevice (q : QMap) (deviceID : String) (now : Int) : QMap :=
  insertA q deviceID now

/-- `MemoryDeviceRepository.IsDeviceQuarantined`: true iff an entry exists and
has not expired; an expired entry is deleted (lazy expiry). Returns the
answer together with the possibly-updated map. The Go double-checked
delete under the write lock collapses, sequentially, to a single
check-then-delete. -/
def IsDeviceQuarantined (q : QMap) (deviceID : String) (now : Int) :
    Bool × QMap :=
  match lookupA q deviceID with
  | none => (false, q)
  | some t =>
    if QUARANTINE_DURATION < now - t then (false, eraseA q deviceID)
    else (true, q)

end MemoryDeviceRepository

/-- `entities.DeviceRateLimit`: fixed-window counter state. -/
structure DeviceRateLimit where
  count : Int
  lastReset : Int
  blocked : Bool
deriving DecidableEq, Repr

/-- `entities.DeviceBehavior`: the per-device rolling behavioral baseline. -/
structure DeviceBehavior where
  lastSeen : Int
  messageCount : Int
  avgTemperature : ℚ
  avgBattery : ℚ
  accessAttempts : List Int
  anomalyCount : Int
deriving DecidableEq, Repr

/-- `entities.Device`. -/
structure Device where
  id : String
  atype : String
  lastSeen : Int
  rateLimit : DeviceRateLimit
  behavior : DeviceBehavior
  quarantined : Bool
  quarantineTime : Int
deriving DecidableEq, Repr

/-- `entities.NewDevice`: the lazily-created fresh device state. -/
def NewDevice (id atype : String) (now : Int) : Device :=
  { id := id
    atype := atype
    lastSeen := now
    rateLimit := { count := 0, lastReset := now, blocked := false }
    behavior :=
      { lastSeen := 0, messageCount := 0, avgTemperature := 0, avgBattery := 0
        accessAttempts := [], anomalyCount := 0 }
    quarantined := false
    quarantineTime := 0 }

/-- The temperature block of `SensorDataProcessor.analyzeBehavior`
(src/main.go lines 666-685): lazy init on first non-zero sample, else
moving average and drastic-change detection. -/
def tempCheck (deviceID : String) (b : DeviceBehavior) (temperature : ℚ) :
    DeviceBehavior × List Anomaly :=
  if temperature ≠ 0 then
    if b.avgTemperature = 0 then ({ b with avgTemperature := temperature }, [])
    else
      let oldAvg := b.avgTemperature
      let b := { b with avgTemperature := (b.avgTemperature + temperature) / 2 }
      let tempDiff := temperature - oldAvg
      if 20 < tempDiff ∨ tempDiff < -20 then
        ({ b with anomalyCount := b.anomalyCount + 1 },
         [⟨deviceID, .behaviorPattern, .tempDrastic temperature oldAvg, .f tempDiff⟩])
      else (b, [])
  else (b, [])

/-- The battery block of `SensorDataProcessor.analyzeBehavior`
(src/main.go lines 687-706). -/
def batteryCheck (deviceID : String) (b : DeviceBehavior) (batteryLevel : ℚ) :
    DeviceBehavior × List Anomaly :=
  if 0 < batteryLevel then
    if b.avgBattery = 0 then ({ b with avgBattery := batteryLevel }, [])
    else
      let oldAvg := b.avgBattery
      let b := { b with avgBattery := (b.avgBattery + batteryLevel) / 2 }
      let batteryDiff := oldAvg - batteryLevel
      if 50 < batteryDiff then
        ({ b with anomalyCount := b.anomalyCount + 1 },
         [⟨deviceID, .behaviorPattern, .batteryDrop batteryLevel oldAvg, .f batteryDiff⟩])
      else (b, [])
  else (b, [])

/-- The access-attempts block of `SensorDataProcessor.analyzeBehavior`
(src/main.go lines 708-732): bounded history of 10, brute-force check over
the sum of the last 3 entries. -/
def accessCheck (deviceID : String) (b : DeviceBehavior) (accessAttempts : Int) :
    DeviceBehavior × List Anomaly :=
  if 0 < accessAttempts then
    let hist := b.accessAttempts ++ [accessAttempts]
    let hist := if 10 < hist.length then hist.drop 1 else hist
    let b := { b with accessAttempts := hist }
    if 3 ≤ hist.length then
      let recentAttempts := ((hist.drop (hist.length - 3)).foldl (· + ·) 0)
      if 20 < recentAttempts then
        ({ b with anomalyCount := b.anomalyCount + 1 },
         [⟨deviceID, .behaviorPattern, .bruteForce recentAttempts, .i recentAttempts⟩])
      else (b, [])
    else (b, [])
  else (b, [])

/-- The three baseline checks of `SensorDataProcessor.analyzeBehavior` in
source order, after the `MessageCount++` bump. -/
def behaviorChecks (b : DeviceBehavior) (d : SensorData) :
    DeviceBehavior × List Anomaly :=
  let r1 := tempCheck d.deviceID { b with messageCount := b.messageCount + 1 } d.temperature
  let r2 := batteryCheck d.deviceID r1.1 d.batteryLevel
  let r3 := accessCheck d.deviceID r2.1 d.accessAttempts
  (r3.1, r1.2 ++ r2.2 ++ r3.2)

/-- `ANOMALY_THRESHOLD = 3`. -/
def ANOMALY_THRESHOLD : Int := 3

/-- `SensorDataProcessor.analyzeBehavior` (src/main.go lines 660-745) as a
pure state transition: returns the updated behavior, the behavior-pattern
anomalies, and the quarantine trigger the Go code hands to
`QuarantineDevice`/`SendQuarantineAlert` (with the anomaly counter reset). -/
def analyzeBehavior (b : DeviceBehavior) (d : SensorData) :
    DeviceBehavior × List Anomaly × Option QReason :=
  let r := behaviorChecks b d
  if ANOMALY_THRESHOLD ≤ r.1.anomalyCount then
    ({ r.1 with anomalyCount := 0 }, r.2, some (.multipleAnomalies r.1.anomalyCount))
  else (r.1, r.2, none)

/-- Fresh behavior state (all-zero baseline, as in `NewDevice`). -/
def initBehavior : DeviceBehavior :=
  { lastSeen := 0, messageCount := 0, avgTemperature := 0, avgBattery := 0
    accessAttempts := [], anomalyCount := 0 }

/-- Folds a sequence of readings through `analyzeBehavior` starting from the
fresh baseline, keeping the behavior state. -/
def runBehavior (ds : List SensorData) : DeviceBehavior :=
  ds.foldl (fun b d => (analyzeBehavior b d).1) initBehavior

namespace RateLimiter

/-- Keeps the request timestamps inside the trailing window:
`requestTime.After(cutoff)` with `cutoff = now - window`
(`internal/domain/services/rate_limiter.go`). -/
def validRequests (window now : Int) (reqs : List Int) : List Int :=
  reqs.filter (fun t => decide (now - window < t))

/-- `services.RateLimiter.IsAllowed` for one device's request list: prunes to
the window, rejects when the pruned list has reached `maxRequests`,
otherwise records `now`. Returns the decision and the new stored list. -/
def IsAllowed (maxRequests : Nat) (window : Int) (reqs : List Int) (now : Int) :
    Bool × List Int :=
  let valid := validRequests window now reqs
  if maxRequests ≤ valid.length then (false, valid)
  else (true, valid ++ [now])

/-- `services.RateLimiter.GetRequestCount`: counts the stored requests inside
the window, without mutating. -/
def GetRequestCount (window : Int) (reqs : List Int) (now : Int) : Nat :=
  (validRequests window now reqs).length

/-- State threading of consecutive `IsAllowed` calls at the given times. -/
def admitFold (maxRequests : Nat) (window : Int) (reqs : List Int)
    (ts : List Int) : List Int :=
  ts.foldl (fun s t => (IsAllowed maxRequests window s t).2) reqs

/-- Consecutive `IsAllowed` calls at the given times, collecting both the
final stored list and the sequence of admission decisions. -/
def admitSeq (maxRequests : Nat) (window : Int) (ts : List Int) :
    List Int × List Bool :=
  ts.foldl
    (fun acc t =>
      let r := IsAllowed maxRequests window acc.1 t
      (r.2, acc.2 ++ [r.1]))
    ([], [])

end RateLimiter

namespace MemoryDeviceRepository

/-- `MemoryDeviceRepository.GetQuarantinedDevices`: walks the quarantine map
and returns the stored `Device` for each quarantined id that also exists in
the `devices` map; no expiry filtering. -/
def GetQuarantinedDevices (devices : List (String × Device)) (q : QMap) :
    List Device :=
  q.filterMap (fun p => lookupA devices p.1)

end MemoryDeviceRepository

open MemoryDeviceRepository RateLimiter in
/-- The observable state the sensor pipeline touches: the processor's sliding
rate-limiter map, the device store, the quarantine map, the persisted
anomalies, and the notification fan-out (alerts sent). -/
structure PState where
  rl : List (String × List Int)
  devices : List (String × Device)
  quarantined : MemoryDeviceRepository.QMap
  anomalies : List Anomaly
  anomalyAlerts : List Anomaly
  quarantineAlerts : List (String × QReason)
deriving DecidableEq, Repr

/-- Errors `SensorDataProcessor.ProcessSensorData` returns to its caller. -/
inductive PErr where
  | rateLimited (deviceID : String)
  | validation (e : VErr)
  | quarantinedDevice
deriving DecidableEq, Repr

/-- `SensorDataProcessor.ProcessSensorData` (src/main.go lines 526-610) as a
state transition at a single processing instant `now`. The sliding limiter
is the one built in `NewSensorDataProcessor` (max 10, 1-minute window).
`GetDevice` hands out a pointer into the store, so the device-type
fill-in is visible in the store immediately (before `UpdateDevice`). -/
def ProcessSensorData (now : Int) (st : PState) (d : SensorData) :
    PState × Option PErr :=
  let reqs := (lookupA st.rl d.deviceID).getD []
  let res := RateLimiter.IsAllowed 10 60 reqs now
  let st := { st with rl := insertA st.rl d.deviceID res.2 }
  if ¬ res.1 then
    let n : Int := RateLimiter.GetRequestCount 60 res.2 now
    let a : Anomaly := ⟨d.deviceID, .behaviorPattern, .rateLimitExcess n, .i n⟩
    let reason := QReason.rateLimitAbuse n
    ({ st with
        anomalies := st.anomalies ++ [a]
        anomalyAlerts := st.anomalyAlerts ++ [a]
        quarantined := MemoryDeviceRepository.QuarantineDevice st.quarantined d.deviceID now
        quarantineAlerts := st.quarantineAlerts ++ [(d.deviceID, reason)] },
     some (.rateLimited d.deviceID))
  else
    match Validate now d with
    | some e =>
      ({ st with
          quarantined := MemoryDeviceRepository.QuarantineDevice st.quarantined d.deviceID now
          quarantineAlerts := st.quarantineAlerts ++ [(d.deviceID, .invalidData)] },
       some (.validation e))
    | none =>
      let found := lookupA st.devices d.deviceID
      let device :=
        match found with
        | some dev =>
          if dev.atype = "" ∧ d.deviceType ≠ "" then { dev with atype := d.deviceType }
          else dev
        | none => NewDevice d.deviceID d.deviceType now
      let st :=
        match found with
        | some dev =>
          if dev.atype = "" ∧ d.deviceType ≠ "" then
            { st with devices := insertA st.devices d.deviceID device }
          else st
        | none => st
      let qres := MemoryDeviceRepository.IsDeviceQuarantined st.quarantined d.deviceID now
      let st := { st with quarantined := qres.2 }
      if qres.1 then (st, some .quarantinedDevice)
      else
        let found := detectAnomalies d
        let st := { st with
          anomalies := st.anomalies ++ found
          anomalyAlerts := st.anomalyAlerts ++ found }
        let ares := analyzeBehavior device.behavior d
        let device := { device with behavior := ares.1 }
        let st :=
          match ares.2.2 with
          | some r =>
            { st with
                quarantined := MemoryDeviceRepository.QuarantineDevice st.quarantined d.deviceID now
                quarantineAlerts := st.quarantineAlerts ++ [(d.deviceID, r)] }
          | none => st
        let st := { st with
          anomalies := st.anomalies ++ ares.2.1
          anomalyAlerts := st.anomalyAlerts ++ ares.2.1 }
        ({ st with devices := insertA st.devices d.deviceID device }, none)

/-- `MAX_MESSAGES_PER_MINUTE = 20` (the outer, fixed-window limiter of
`internal/domain/usecases`). -/
def MAX_MESSAGES_PER_MINUTE : Int := 20

/-- `usecases.RateLimiter.CheckRateLimit`: fixed 60-second window stored on
the device record in the device store; resets the counter when the window
has elapsed, blocks at `MAX_MESSAGES_PER_MINUTE`, and writes the device
back in both branches. -/
def CheckRateLimit (devices : List (String × Device)) (deviceID : String)
    (now : Int) : Bool × List (String × Device) :=
  let device := (lookupA devices deviceID).getD (NewDevice deviceID "" now)
  let rli := device.rateLimit
  let rli := if 60 ≤ now - rli.lastReset then
      { rli with count := 0, lastReset := now, blocked := false }
    else rli
  if MAX_MESSAGES_PER_MINUTE ≤ rli.count then
    (false, insertA devices deviceID { device with rateLimit := { rli with blocked := true } })
  else
    (true, insertA devices deviceID { device with rateLimit := { rli with count := rli.count + 1 } })

/-- `IoTService.ProcessSensorData`
(`internal/application/services/iot_service.go`): the outer fixed-window
rate limit, then — only when admitted — the sensor processor. A message the
outer limiter rejects yields `none` (success) with no further processing. -/
def IoTProcessSensorData (now : Int) (st : PState) (d : SensorData) :
    PState × Option PErr :=
  let cres := CheckRateLimit st.devices d.deviceID now
  let st := { st with devices := cres.2 }
  if ¬ cres.1 then (st, none)
  else ProcessSensorData now st d

/-- A temperature-only reading at 25.0 for device "d1". -/
def reading25 : SensorData := { deviceID := "d1", timestamp := 0, temperature := 25 }

/-- A temperature-only reading at 50.0 for device "d1". -/
def reading50 : SensorData := { deviceID := "d1", timestamp := 0, temperature := 50 }

/-- A temperature-only reading at -25.0 for device "d1". -/
def readingNeg25 : SensorData := { deviceID := "d1", timestamp := 0, temperature := -25 }

/-- A store whose sliding limiter already holds 10 requests for "d1". -/
def stRL : PState :=
  { rl := [("d1", List.replicate 10 0)], devices := [], quarantined := []
    anomalies := [], anomalyAlerts := [], quarantineAlerts := [] }

/-- A minimal reading from "d1". -/
def dataRL : SensorData := { deviceID := "d1", timestamp := 0 }

/-- A stored device for "d1" with a known type. -/
def dev7 : Device := NewDevice "d1" "sensor" 0

/-- A store in which "d1" is saved and freshly quarantined. -/
def st7 : PState :=
  { rl := [], devices := [("d1", dev7)], quarantined := [("d1", 0)]
    anomalies := [], anomalyAlerts := [], quarantineAlerts := [] }

/-- A valid reading from "d1" at time 10. -/
def data7 : SensorData := { deviceID := "d1", timestamp := 10 }

/-- A stored device for "d1" with unknown type. -/
def dev0 : Device := NewDevice "d1" "" 0

/-- A store in which the type-less "d1" is saved and freshly quarantined. -/
def st0 : PState :=
  { rl := [], devices := [("d1", dev0)], quarantined := [("d1", 0)]
    anomalies := [], anomalyAlerts := [], quarantineAlerts := [] }

/-- A valid reading from "d1" that carries a device type. -/
def data0 : SensorData :=
  { deviceID := "d1", deviceType := "sensor", timestamp := 10 }

/-- A stored device for "d1" whose fixed window is exhausted. -/
def devC : Device :=
  { id := "d1", atype := "", lastSeen := 0
    rateLimit := { count := 20, lastReset := 0, blocked := false }
    behavior := initBehavior, quarantined := false, quarantineTime := 0 }

/-- A store holding only the exhausted device. -/
def stC : PState :=
  { rl := [], devices := [("d1", devC)], quarantined := []
    anomalies := [], anomalyAlerts := [], quarantineAlerts := [] }

open MemoryDeviceRepository RateLimiter

theorem lookupA_eraseA_same {α : Type} (l : List (String × α)) (k : String) :
    lookupA (eraseA l k) k = none := by
  induction l with
  | nil => rfl
  | cons p l ih =>
    by_cases hp : p.1 = k
    · simpa [eraseA, hp] using ih
    · simpa [eraseA, lookupA, hp] using ih

theorem lookupA_eraseA_ne {α : Type} (l : List (String × α)) (k k' : String)
    (h : k' ≠ k) : lookupA (eraseA l k) k' = lookupA l k' := by
  induction l with
  | nil => rfl
  | cons p l ih =>
    by_cases hp : p.1 = k
    · have h1 : ¬ (k = k') := fun hc => h hc.symm
      simpa [eraseA, lookupA, hp, h1] using ih
    · by_cases hk : p.1 = k'
      · simp [eraseA, lookupA, hp, hk, h]
      · simpa [eraseA, lookupA, hp, hk] using ih

theorem lookupA_insertA_same {α : Type} (l : List (String × α)) (k : String) (v : α) :
    lookupA (insertA l k v) k = some v := by
  simp [lookupA, insertA]

theorem lookupA_insertA_ne {α : Type} (l : List (String × α)) (k k' : String) (v : α)
    (h : k' ≠ k) : lookupA (insertA l k v) k' = lookupA l k' := by
  simp only [lookupA, insertA]
  rw [if_neg (fun hc => h hc.symm)]
  exact lookupA_eraseA_ne l k k' h


/-- C1: quarantining a device makes an immediate quarantine query answer true;
whenever a quarantine timestamp exists, the query answers true iff
`now - timestamp` is at most the 5-minute duration, and on expiry it
answers false and removes the entry from the quarantine map (lazy expiry). -/
theorem quarantine_lifecycle_C1 :
    (∀ (q : QMap) (d : String) (now : Int),
      IsDeviceQuarantined (QuarantineDevice q d now) d now =
        (true, QuarantineDevice q d now)) ∧
    (∀ (q : QMap) (d : String) (t now : Int), lookupA q d = some t →
      (((IsDeviceQuarantined q d now).1 = true) ↔ now - t ≤ QUARANTINE_DURATION) ∧
      (QUARANTINE_DURATION < now - t →
        IsDeviceQuarantined q d now = (false, eraseA q d) ∧
        lookupA (IsDeviceQuarantined q d now).2 d = none)) := by
  constructor
  · intro q d now
    have h : lookupA (QuarantineDevice q d now) d = some now :=
      lookupA_insertA_same q d now
    simp [IsDeviceQuarantined, h, QUARANTINE_DURATION]
  · intro q d t now h
    refine ⟨?_, ?_⟩
    · simp only [IsDeviceQuarantined, h]
      split_ifs with hc
      · exact iff_of_false (by simp) (not_le.mpr hc)
      · exact iff_of_true rfl (not_lt.mp hc)
    · intro hexp
      have : IsDeviceQuarantined q d now = (false, eraseA q d) := by
        simp [IsDeviceQuarantined, h, hexp]
      exact ⟨this, by rw [this]; exact lookupA_eraseA_same q d⟩

/-- C1 witness: a concrete device quarantined at time 0 is quarantined at
time 0, and at time 301 the query answers false and deletes the entry. -/
theorem quarantine_lifecycle_C1_w :
    IsDeviceQuarantined (QuarantineDevice [] "d1" 0) "d1" 0 =
      (true, QuarantineDevice [] "d1" 0) ∧
    (IsDeviceQuarantined [("d1", (0 : Int))] "d1" 301 =
        (false, eraseA [("d1", (0 : Int))] "d1") ∧
      lookupA (IsDeviceQuarantined [("d1", (0 : Int))] "d1" 301).2 "d1" = none) :=
  ⟨quarantine_lifecycle_C1.1 [] "d1" 0,
   (quarantine_lifecycle_C1.2 [("d1", (0 : Int))] "d1" 0 301 (by decide)).2 (by decide)⟩

/-- C9 counterexample: "d1" is present in the quarantine map, yet
`GetQuarantinedDevices` returns the empty list because "d1" was never saved
to the `devices` map — so not every quarantined id appears in the result. -/
theorem getQuarantined_missing_device_C9 :
    lookupA ([("d1", (0 : Int))] : QMap) "d1" = some 0 ∧
    GetQuarantinedDevices ([] : List (String × Device)) [("d1", (0 : Int))] = [] := by
  exact ⟨rfl, rfl⟩

/-- C9 amended: every device id in the quarantine map that also has an entry
in the devices map appears in the returned list; no expiry filtering is
applied (the function takes no clock at all), so a not-yet-swept expired
entry is still listed. -/
theorem getQuarantined_complete_C9 (devices : List (String × Device))
    (q : QMap) (d : String) (t : Int) (dev : Device)
    (hq : (d, t) ∈ q) (hd : lookupA devices d = some dev) :
    dev ∈ GetQuarantinedDevices devices q := by
  unfold GetQuarantinedDevices
  exact List.mem_filterMap.mpr ⟨(d, t), hq, by simpa using hd⟩

/-- C9 witness: a saved and quarantined concrete device is listed, even with
an expired timestamp. -/
theorem getQuarantined_complete_C9_w :
    NewDevice "d1" "sensor" 0 ∈
      GetQuarantinedDevices [("d1", NewDevice "d1" "sensor" 0)]
        [("d1", (-1000 : Int))] :=
  getQuarantined_complete_C9 _ _ "d1" (-1000) _ (by simp) rfl

/-- C8: the threshold detector never emits a temperature anomaly for a
reading with temperature 0, and for temperature above 50 or below -10 it
emits exactly one temperature anomaly whose value is the temperature. -/
theorem threshold_temperature_C8 (d : SensorData) :
    (d.temperature = 0 →
      (detectAnomalies d).filter
        (fun a => a.atype = AnomalyType.temperature) = []) ∧
    ((50 < d.temperature ∨ d.temperature < -10) →
      (detectAnomalies d).filter
        (fun a => a.atype = AnomalyType.temperature) =
        [⟨d.deviceID, .temperature, .tempExtreme d.temperature,
          .f d.temperature⟩]) := by
  constructor
  · intro h0
    simp only [detectAnomalies, List.filter_append]
    split_ifs <;> simp_all
  · intro hr
    have hne : d.temperature ≠ 0 := by
      rcases hr with h | h
      · exact ne_of_gt (by linarith)
      · exact ne_of_lt (by linarith)
    simp only [detectAnomalies, List.filter_append]
    rw [if_pos ⟨hne, hr⟩]
    split_ifs <;> simp_all

/-- C8 witness: a reading at 85 degrees yields exactly the one temperature
anomaly valued 85; a zero-temperature reading yields none. -/
theorem threshold_temperature_C8_w :
    (detectAnomalies { deviceID := "d1", timestamp := 0, temperature := 85 }).filter
        (fun a => a.atype = AnomalyType.temperature) =
      [⟨"d1", .temperature, .tempExtreme 85, .f 85⟩] ∧
    (detectAnomalies { deviceID := "d1", timestamp := 0 }).filter
        (fun a => a.atype = AnomalyType.temperature) = [] :=
  ⟨(threshold_temperature_C8 _).2 (by norm_num),
   (threshold_temperature_C8 _).1 rfl⟩


/-- C2: for a non-zero temperature, the temperature check initializes an
unset average to the reading (no anomaly), otherwise sets the average to
`(old + reading) / 2` and emits a behavior-pattern anomaly, bumping the
anomaly counter, exactly when `|reading - old|` exceeds 20; feeding 25 then
50 to a fresh device raises the anomaly only on the second call. -/
theorem behavior_temperature_C2 :
    (∀ (id : String) (b : DeviceBehavior) (temp : ℚ), temp ≠ 0 →
      (b.avgTemperature = 0 →
        tempCheck id b temp = ({ b with avgTemperature := temp }, [])) ∧
      (b.avgTemperature ≠ 0 →
        tempCheck id b temp =
          (if 20 < |temp - b.avgTemperature| then
            ({ b with avgTemperature := (b.avgTemperature + temp) / 2,
                      anomalyCount := b.anomalyCount + 1 },
             [⟨id, .behaviorPattern, .tempDrastic temp b.avgTemperature,
               .f (temp - b.avgTemperature)⟩])
          else
            ({ b with avgTemperature := (b.avgTemperature + temp) / 2 }, [])))) ∧
    ((analyzeBehavior initBehavior reading25).2.1 = [] ∧
      (analyzeBehavior (analyzeBehavior initBehavior reading25).1 reading50).2.1 =
        [⟨"d1", .behaviorPattern, .tempDrastic 50 25, .f 25⟩]) := by
  refine ⟨fun id b temp ht => ⟨fun h0 => by simp [tempCheck, ht, h0], fun hne => ?_⟩, ?_, ?_⟩
  · by_cases habs : 20 < |temp - b.avgTemperature|
    · have hcond : 20 < temp - b.avgTemperature ∨ temp - b.avgTemperature < -20 := by
        rcases lt_abs.mp habs with h | h
        · exact Or.inl h
        · exact Or.inr (by linarith)
      simp [tempCheck, ht, hne, hcond, habs]
    · have hle := abs_le.mp (not_lt.mp habs)
      have hcond : ¬ (20 < temp - b.avgTemperature ∨ temp - b.avgTemperature < -20) := by
        push_neg
        exact ⟨hle.2, by linarith [hle.1]⟩
      simp [tempCheck, ht, hne, hcond, habs]
  · norm_num [analyzeBehavior, behaviorChecks, tempCheck, batteryCheck, accessCheck,
      initBehavior, reading25, ANOMALY_THRESHOLD]
  · norm_num [analyzeBehavior, behaviorChecks, tempCheck, batteryCheck, accessCheck,
      initBehavior, reading25, reading50, ANOMALY_THRESHOLD]

/-- C2 witness: the first non-zero sample for a fresh device initializes the
average to the reading with no anomaly. -/
theorem behavior_temperature_C2_w :
    tempCheck "d1" initBehavior 25 =
      ({ initBehavior with avgTemperature := 25 }, []) :=
  (behavior_temperature_C2.1 "d1" initBehavior 25 (by norm_num)).1 rfl

/-- C3: after the three behavior checks, an anomaly count of at least 3
triggers a quarantine with reason carrying that count, and resets the
counter to 0; a count below 3 triggers nothing and keeps the counter. -/
theorem behavior_quarantine_threshold_C3 (b : DeviceBehavior) (d : SensorData) :
    (ANOMALY_THRESHOLD ≤ (behaviorChecks b d).1.anomalyCount →
      analyzeBehavior b d =
        ({ (behaviorChecks b d).1 with anomalyCount := 0 },
         (behaviorChecks b d).2,
         some (.multipleAnomalies (behaviorChecks b d).1.anomalyCount))) ∧
    ((behaviorChecks b d).1.anomalyCount < ANOMALY_THRESHOLD →
      analyzeBehavior b d =
        ((behaviorChecks b d).1, (behaviorChecks b d).2, none)) := by
  constructor
  · intro h
    simp [analyzeBehavior, h]
  · intro h
    simp [analyzeBehavior, not_le.mpr h]

/-- C3 witness: a device whose counter already reads 3 is quarantined with
reason carrying 3 by an otherwise-empty reading, and its counter resets. -/
theorem behavior_quarantine_threshold_C3_w :
    analyzeBehavior { initBehavior with anomalyCount := 3 }
        { deviceID := "d1", timestamp := 0 } =
      ({ (behaviorChecks { initBehavior with anomalyCount := 3 }
            { deviceID := "d1", timestamp := 0 }).1 with anomalyCount := 0 },
       (behaviorChecks { initBehavior with anomalyCount := 3 }
          { deviceID := "d1", timestamp := 0 }).2,
       some (.multipleAnomalies
          (behaviorChecks { initBehavior with anomalyCount := 3 }
            { deviceID := "d1", timestamp := 0 }).1.anomalyCount)) :=
  (behavior_quarantine_threshold_C3 _ _).1 (by
    norm_num [behaviorChecks, tempCheck, batteryCheck, accessCheck,
      initBehavior, ANOMALY_THRESHOLD])

theorem tempCheck_avgBattery (id : String) (b : DeviceBehavior) (x : ℚ) :
    ((tempCheck id b x).1).avgBattery = b.avgBattery := by
  unfold tempCheck; dsimp only; split_ifs <;> rfl

theorem batteryCheck_avgTemperature (id : String) (b : DeviceBehavior) (x : ℚ) :
    ((batteryCheck id b x).1).avgTemperature = b.avgTemperature := by
  unfold batteryCheck; dsimp only; split_ifs <;> rfl

theorem accessCheck_avgTemperature (id : String) (b : DeviceBehavior) (x : Int) :
    ((accessCheck id b x).1).avgTemperature = b.avgTemperature := by
  unfold accessCheck; dsimp only; split_ifs <;> rfl

theorem accessCheck_avgBattery (id : String) (b : DeviceBehavior) (x : Int) :
    ((accessCheck id b x).1).avgBattery = b.avgBattery := by
  unfold accessCheck; dsimp only; split_ifs <;> rfl

theorem analyzeBehavior_avgTemperature (b : DeviceBehavior) (d : SensorData) :
    ((analyzeBehavior b d).1).avgTemperature =
      ((behaviorChecks b d).1).avgTemperature := by
  unfold analyzeBehavior; dsimp only; split_ifs <;> rfl

theorem analyzeBehavior_avgBattery (b : DeviceBehavior) (d : SensorData) :
    ((analyzeBehavior b d).1).avgBattery =
      ((behaviorChecks b d).1).avgBattery := by
  unfold analyzeBehavior; dsimp only; split_ifs <;> rfl

theorem behaviorChecks_avgTemperature (b : DeviceBehavior) (d : SensorData)
    (h : d.temperature = 0) :
    ((behaviorChecks b d).1).avgTemperature = b.avgTemperature := by
  unfold behaviorChecks
  rw [accessCheck_avgTemperature, batteryCheck_avgTemperature]
  simp [tempCheck, h]

theorem batteryCheck_avgBattery_pos (id : String) (b : DeviceBehavior) (x : ℚ)
    (hb : 0 ≤ b.avgBattery) (hx : 0 < x) :
    0 < ((batteryCheck id b x).1).avgBattery := by
  unfold batteryCheck
  dsimp only
  rw [if_pos hx]
  by_cases h0 : b.avgBattery = 0
  · rw [if_pos h0]
    exact hx
  · rw [if_neg h0]
    have hgt : 0 < b.avgBattery := lt_of_le_of_ne hb (Ne.symm h0)
    split_ifs <;> show 0 < (b.avgBattery + x) / 2 <;> linarith

theorem batteryCheck_avgBattery_stays (id : String) (b : DeviceBehavior) (x : ℚ)
    (hx : ¬ 0 < x) : ((batteryCheck id b x).1).avgBattery = b.avgBattery := by
  simp [batteryCheck, hx]

theorem batteryCheck_avgBattery_nonneg (id : String) (b : DeviceBehavior) (x : ℚ)
    (hb : 0 ≤ b.avgBattery) : 0 ≤ ((batteryCheck id b x).1).avgBattery := by
  by_cases hx : 0 < x
  · exact le_of_lt (batteryCheck_avgBattery_pos id b x hb hx)
  · rw [batteryCheck_avgBattery_stays id b x hx]; exact hb

/-- One `analyzeBehavior` step keeps a nonnegative battery average
nonnegative. -/
theorem step_avgBattery_nonneg (b : DeviceBehavior) (d : SensorData)
    (hb : 0 ≤ b.avgBattery) : 0 ≤ ((analyzeBehavior b d).1).avgBattery := by
  rw [analyzeBehavior_avgBattery]
  unfold behaviorChecks
  rw [accessCheck_avgBattery]
  exact batteryCheck_avgBattery_nonneg _ _ _ (by rw [tempCheck_avgBattery]; exact hb)

/-- One `analyzeBehavior` step keeps a positive battery average positive. -/
theorem step_avgBattery_pos (b : DeviceBehavior) (d : SensorData)
    (hb : 0 < b.avgBattery) : 0 < ((analyzeBehavior b d).1).avgBattery := by
  rw [analyzeBehavior_avgBattery]
  unfold behaviorChecks
  rw [accessCheck_avgBattery]
  by_cases hx : 0 < d.batteryLevel
  · exact batteryCheck_avgBattery_pos _ _ _ (by rw [tempCheck_avgBattery]; exact le_of_lt hb) hx
  · rw [batteryCheck_avgBattery_stays _ _ _ hx, tempCheck_avgBattery]; exact hb

/-- A positive battery sample makes the battery average positive. -/
theorem step_avgBattery_sample_pos (b : DeviceBehavior) (d : SensorData)
    (hb : 0 ≤ b.avgBattery) (hx : 0 < d.batteryLevel) :
    0 < ((analyzeBehavior b d).1).avgBattery := by
  rw [analyzeBehavior_avgBattery]
  unfold behaviorChecks
  rw [accessCheck_avgBattery]
  exact batteryCheck_avgBattery_pos _ _ _ (by rw [tempCheck_avgBattery]; exact hb) hx

/-- A non-positive battery sample leaves the battery average untouched. -/
theorem step_avgBattery_sample_nonpos (b : DeviceBehavior) (d : SensorData)
    (hx : ¬ 0 < d.batteryLevel) :
    ((analyzeBehavior b d).1).avgBattery = b.avgBattery := by
  rw [analyzeBehavior_avgBattery]
  unfold behaviorChecks
  rw [accessCheck_avgBattery, batteryCheck_avgBattery_stays _ _ _ hx, tempCheck_avgBattery]

/-- A zero-temperature reading leaves the temperature average untouched. -/
theorem step_avgTemperature_zero (b : DeviceBehavior) (d : SensorData)
    (h : d.temperature = 0) :
    ((analyzeBehavior b d).1).avgTemperature = b.avgTemperature := by
  rw [analyzeBehavior_avgTemperature]
  exact behaviorChecks_avgTemperature b d h

theorem foldBehavior_temp_zero : ∀ (ds : List SensorData) (b : DeviceBehavior),
    (∀ d ∈ ds, d.temperature = 0) →
    (ds.foldl (fun b d => (analyzeBehavior b d).1) b).avgTemperature =
      b.avgTemperature := by
  intro ds
  induction ds with
  | nil => intro b _; rfl
  | cons d ds ih =>
    intro b h
    rw [List.foldl_cons, ih _ (fun x hx => h x (List.mem_cons_of_mem _ hx)),
      step_avgTemperature_zero b d (h d (List.mem_cons_self _ _))]

theorem foldBehavior_batt_nonpos : ∀ (ds : List SensorData) (b : DeviceBehavior),
    (∀ d ∈ ds, ¬ 0 < d.batteryLevel) →
    (ds.foldl (fun b d => (analyzeBehavior b d).1) b).avgBattery =
      b.avgBattery := by
  intro ds
  induction ds with
  | nil => intro b _; rfl
  | cons d ds ih =>
    intro b h
    rw [List.foldl_cons, ih _ (fun x hx => h x (List.mem_cons_of_mem _ hx)),
      step_avgBattery_sample_nonpos b d (h d (List.mem_cons_self _ _))]

theorem foldBehavior_batt_pos : ∀ (ds : List SensorData) (b : DeviceBehavior),
    0 < b.avgBattery →
    0 < (ds.foldl (fun b d => (analyzeBehavior b d).1) b).avgBattery := by
  intro ds
  induction ds with
  | nil => intro b h; exact h
  | cons d ds ih =>
    intro b h
    rw [List.foldl_cons]
    exact ih _ (step_avgBattery_pos b d h)

theorem foldBehavior_batt_sample : ∀ (ds : List SensorData) (b : DeviceBehavior),
    0 ≤ b.avgBattery → (∃ d ∈ ds, 0 < d.batteryLevel) →
    0 < (ds.foldl (fun b d => (analyzeBehavior b d).1) b).avgBattery := by
  intro ds
  induction ds with
  | nil => rintro b _ ⟨d, hd, _⟩; exact absurd hd (List.not_mem_nil d)
  | cons d ds ih =>
    rintro b hb ⟨d', hd', hpos⟩
    rw [List.foldl_cons]
    rcases List.mem_cons.mp hd' with h | h
    · subst h
      exact foldBehavior_batt_pos ds _ (step_avgBattery_sample_pos b d' hb hpos)
    · exact ih _ (step_avgBattery_nonneg b d hb) ⟨d', h, hpos⟩

/-- C6 counterexample: after temperature samples 25 then -25, the rolling
average is a genuine zero — the reading 25 is a non-zero sample that was
observed, so zero is not exclusively the "unset" sentinel. -/
theorem avg_zero_sentinel_false_C6 :
    (runBehavior [reading25, readingNeg25]).avgTemperature = 0 ∧
    reading25 ∈ [reading25, readingNeg25] ∧ reading25.temperature ≠ 0 := by
  refine ⟨?_, List.mem_cons_self _ _, by norm_num [reading25]⟩
  norm_num [runBehavior, analyzeBehavior, behaviorChecks, tempCheck,
    batteryCheck, accessCheck, initBehavior, reading25, readingNeg25,
    ANOMALY_THRESHOLD]

/-- C6 amended: over any sequence of behavior-analysis steps from a fresh
device, the temperature average stays zero while only zero temperatures are
observed; the battery average is zero exactly when no positive battery
sample has been observed (the original two-sided claim fails for
temperature, where real samples can average to zero). -/
theorem avg_sentinel_amended_C6 (ds : List SensorData) :
    ((∀ d ∈ ds, d.temperature = 0) → (runBehavior ds).avgTemperature = 0) ∧
    ((runBehavior ds).avgBattery = 0 ↔ ∀ d ∈ ds, ¬ 0 < d.batteryLevel) := by
  refine ⟨fun h => ?_, ?_, fun h => ?_⟩
  · rw [runBehavior, foldBehavior_temp_zero ds initBehavior h]; rfl
  · intro hz
    by_contra hnot
    push_neg at hnot
    obtain ⟨d, hd, hpos⟩ := hnot
    have := foldBehavior_batt_sample ds initBehavior le_rfl ⟨d, hd, hpos⟩
    rw [runBehavior] at hz
    exact absurd hz (ne_of_gt this)
  · rw [runBehavior, foldBehavior_batt_nonpos ds initBehavior h]; rfl

/-- C6 witness: a single zero-temperature, zero-battery reading leaves both
averages at the unset sentinel. -/
theorem avg_sentinel_amended_C6_w :
    (runBehavior [{ deviceID := "d1", timestamp := 0 }]).avgTemperature = 0 ∧
    (runBehavior [{ deviceID := "d1", timestamp := 0 }]).avgBattery = 0 :=
  ⟨(avg_sentinel_amended_C6 _).1 (by
      intro d hd
      simp only [List.mem_singleton] at hd
      subst hd
      rfl),
   (avg_sentinel_amended_C6 _).2.mpr (by
      intro d hd
      simp only [List.mem_singleton] at hd
      subst hd
      norm_num)⟩

theorem IsAllowed_admit (maxR : Nat) (window now : Int) (s : List Int)
    (hin : ∀ t ∈ s, now - window < t) (hlen : s.length < maxR) :
    IsAllowed maxR window s now = (true, s ++ [now]) := by
  have hf : validRequests window now s = s :=
    List.filter_eq_self.mpr (fun a ha => by simpa using hin a ha)
  simp [IsAllowed, hf, not_le.mpr hlen]

theorem IsAllowed_reject (maxR : Nat) (window now : Int) (s : List Int)
    (hin : ∀ t ∈ s, now - window < t) (hlen : maxR ≤ s.length) :
    IsAllowed maxR window s now = (false, s) := by
  have hf : validRequests window now s = s :=
    List.filter_eq_self.mpr (fun a ha => by simpa using hin a ha)
  simp [IsAllowed, hf, hlen]

theorem admitFold_length_le (maxR : Nat) (window : Int) :
    ∀ (ts : List Int) (s : List Int), s.length ≤ maxR →
      (admitFold maxR window s ts).length ≤ maxR := by
  intro ts
  induction ts with
  | nil => intro s h; exact h
  | cons t ts ih =>
    intro s h
    have hstep : ((IsAllowed maxR window s t).2).length ≤ maxR := by
      unfold IsAllowed validRequests
      dsimp only
      split_ifs with hc
      · exact le_trans (List.length_filter_le _ _) h
      · push_neg at hc
        rw [List.length_append]
        simp only [List.length_singleton]
        omega
    simpa [admitFold, List.foldl_cons] using ih _ hstep

/-- C4: with max 5 and a 60-second window, six admissions inside one window
admit the first five and reject the sixth; a call whose stored requests all
lie a full window in the past is admitted again; and the in-window request
count after any call sequence never exceeds 5. -/
theorem rate_limiter_C4 :
    (∀ t1 t2 t3 t4 t5 t6 : Int,
      t1 ≤ t2 → t2 ≤ t3 → t3 ≤ t4 → t4 ≤ t5 → t5 ≤ t6 → t6 - t1 < 60 →
      admitSeq 5 60 [t1, t2, t3, t4, t5, t6] =
        ([t1, t2, t3, t4, t5], [true, true, true, true, true, false])) ∧
    (∀ (s : List Int) (now : Int), (∀ t ∈ s, t + 60 ≤ now) →
      (IsAllowed 5 60 s now).1 = true) ∧
    (∀ (ts : List Int) (now : Int),
      GetRequestCount 60 (admitFold 5 60 [] ts) now ≤ 5) := by
  refine ⟨?_, ?_, ?_⟩
  · intro t1 t2 t3 t4 t5 t6 h12 h23 h34 h45 h56 hw
    have e1 : IsAllowed 5 60 [] t1 = (true, [t1]) :=
      IsAllowed_admit 5 60 t1 [] (by simp) (by simp)
    have e2 : IsAllowed 5 60 [t1] t2 = (true, [t1, t2]) := by
      refine IsAllowed_admit 5 60 t2 [t1] ?_ (by simp)
      intro t ht; simp only [List.mem_singleton] at ht; subst ht; linarith
    have e3 : IsAllowed 5 60 [t1, t2] t3 = (true, [t1, t2, t3]) := by
      refine IsAllowed_admit 5 60 t3 [t1, t2] ?_ (by simp)
      intro t ht; simp at ht
      rcases ht with rfl | rfl <;> linarith
    have e4 : IsAllowed 5 60 [t1, t2, t3] t4 = (true, [t1, t2, t3, t4]) := by
      refine IsAllowed_admit 5 60 t4 [t1, t2, t3] ?_ (by simp)
      intro t ht; simp at ht
      rcases ht with rfl | rfl | rfl <;> linarith
    have e5 : IsAllowed 5 60 [t1, t2, t3, t4] t5 =
        (true, [t1, t2, t3, t4, t5]) := by
      refine IsAllowed_admit 5 60 t5 [t1, t2, t3, t4] ?_ (by simp)
      intro t ht; simp at ht
      rcases ht with rfl | rfl | rfl | rfl <;> linarith
    have e6 : IsAllowed 5 60 [t1, t2, t3, t4, t5] t6 =
        (false, [t1, t2, t3, t4, t5]) := by
      refine IsAllowed_reject 5 60 t6 [t1, t2, t3, t4, t5] ?_ (by simp)
      intro t ht; simp at ht
      rcases ht with rfl | rfl | rfl | rfl | rfl <;> linarith
    simp [admitSeq, List.foldl_cons, List.foldl_nil, e1, e2, e3, e4, e5, e6]
  · intro s now h
    have hf : validRequests 60 now s = [] :=
      List.filter_eq_nil_iff.mpr
        (fun a ha => by simpa using not_lt.mpr (by linarith [h a ha]))
    simp [IsAllowed, hf]
  · intro ts now
    have h1 := admitFold_length_le 5 60 ts [] (by simp)
    have h2 : GetRequestCount 60 (admitFold 5 60 [] ts) now ≤
        (admitFold 5 60 [] ts).length := List.length_filter_le _ _
    exact le_trans h2 h1

/-- C4 witness: six simultaneous admissions for one device admit five and
reject the sixth; a device whose only request is a full window old is
admitted again. -/
theorem rate_limiter_C4_w :
    admitSeq 5 60 [0, 0, 0, 0, 0, 0] =
      ([0, 0, 0, 0, 0], [true, true, true, true, true, false]) ∧
    (IsAllowed 5 60 [0] 60).1 = true :=
  ⟨rate_limiter_C4.1 0 0 0 0 0 0 le_rfl le_rfl le_rfl le_rfl le_rfl (by norm_num),
   rate_limiter_C4.2.1 [0] 60 (by
      intro t ht
      simp only [List.mem_singleton] at ht
      subst ht
      norm_num)⟩

/-- C5: when the pipeline's sliding rate limiter rejects a device, the
processor persists one behavior-pattern anomaly describing the excess rate,
quarantines the device with a reason whose rendering starts with
"rate limit", sends both an anomaly alert and a quarantine alert, returns a
rate-limit error, and leaves the device store untouched (no later pipeline
step runs). -/
theorem rate_limit_rejection_C5 (now : Int) (st : PState) (d : SensorData)
    (h : (IsAllowed 10 60 ((lookupA st.rl d.deviceID).getD []) now).1 = false) :
    ProcessSensorData now st d =
      (let res := IsAllowed 10 60 ((lookupA st.rl d.deviceID).getD []) now
       let n : Int := GetRequestCount 60 res.2 now
       let a : Anomaly := ⟨d.deviceID, .behaviorPattern, .rateLimitExcess n, .i n⟩
       ({ st with
           rl := insertA st.rl d.deviceID res.2
           anomalies := st.anomalies ++ [a]
           anomalyAlerts := st.anomalyAlerts ++ [a]
           quarantined := QuarantineDevice st.quarantined d.deviceID now
           quarantineAlerts := st.quarantineAlerts ++
             [(d.deviceID, QReason.rateLimitAbuse n)] },
        some (.rateLimited d.deviceID))) ∧
    (∀ n : Int, ∃ s, reasonText (.rateLimitAbuse n) = "rate limit" ++ s) := by
  constructor
  · simp [ProcessSensorData, h]
  · intro n
    refine ⟨" abuse: " ++ (toString n ++ " mensajes/minuto"), ?_⟩
    rw [reasonText,
      show ("rate limit abuse: " : String) = "rate limit" ++ " abuse: " from by decide,
      String.append_assoc, String.append_assoc]


/-- C5 witness: the 11th message inside the window takes the rate-limited
branch of the pipeline. -/
theorem rate_limit_rejection_C5_w :
    ProcessSensorData 0 stRL dataRL =
      (let res := IsAllowed 10 60 ((lookupA stRL.rl dataRL.deviceID).getD []) 0
       let n : Int := GetRequestCount 60 res.2 0
       let a : Anomaly := ⟨dataRL.deviceID, .behaviorPattern, .rateLimitExcess n, .i n⟩
       ({ stRL with
           rl := insertA stRL.rl dataRL.deviceID res.2
           anomalies := stRL.anomalies ++ [a]
           anomalyAlerts := stRL.anomalyAlerts ++ [a]
           quarantined := QuarantineDevice stRL.quarantined dataRL.deviceID 0
           quarantineAlerts := stRL.quarantineAlerts ++
             [(dataRL.deviceID, QReason.rateLimitAbuse n)] },
        some (.rateLimited dataRL.deviceID))) ∧
    (∀ n : Int, ∃ s, reasonText (.rateLimitAbuse n) = "rate limit" ++ s) :=
  rate_limit_rejection_C5 0 stRL dataRL (by decide)

/-- C7 amended: a valid, rate-admitted reading for a currently quarantined
device is rejected with a "device quarantined" error; no anomaly is
persisted, no alert sent, the quarantine map is untouched, and the stored
devices are unchanged except that the quarantined device's type field may
be filled in when previously unknown (the `GetDevice` pointer write happens
before the quarantine check). -/
theorem quarantined_rejection_C7 (now : Int) (st : PState) (d : SensorData)
    (t : Int)
    (hallow : (IsAllowed 10 60 ((lookupA st.rl d.deviceID).getD []) now).1 = true)
    (hvalid : Validate now d = none)
    (hq : lookupA st.quarantined d.deviceID = some t)
    (hfresh : now - t ≤ QUARANTINE_DURATION) :
    (ProcessSensorData now st d).2 = some .quarantinedDevice ∧
    (ProcessSensorData now st d).1.anomalies = st.anomalies ∧
    (ProcessSensorData now st d).1.anomalyAlerts = st.anomalyAlerts ∧
    (ProcessSensorData now st d).1.quarantined = st.quarantined ∧
    (ProcessSensorData now st d).1.quarantineAlerts = st.quarantineAlerts ∧
    (∀ x, x ≠ d.deviceID →
      lookupA (ProcessSensorData now st d).1.devices x = lookupA st.devices x) ∧
    lookupA (ProcessSensorData now st d).1.devices d.deviceID =
      (lookupA st.devices d.deviceID).map
        (fun dev => if dev.atype = "" ∧ d.deviceType ≠ "" then
          { dev with atype := d.deviceType } else dev) := by
  have hqres : IsDeviceQuarantined st.quarantined d.deviceID now =
      (true, st.quarantined) := by
    simp only [IsDeviceQuarantined, hq]
    rw [if_neg (not_lt.mpr hfresh)]
  rcases hdev : lookupA st.devices d.deviceID with _ | dev
  · have key : ProcessSensorData now st d =
        ({ st with rl := (insertA st.rl d.deviceID
            (IsAllowed 10 60 ((lookupA st.rl d.deviceID).getD []) now).2) },
         some .quarantinedDevice) := by
      simp [ProcessSensorData, hallow, hvalid, hdev, hqres]
    refine ⟨by rw [key], by rw [key], by rw [key], by rw [key], by rw [key],
      fun x hx => by rw [key], by rw [key, hdev]; rfl⟩
  · by_cases htype : dev.atype = "" ∧ d.deviceType ≠ ""
    · have key : ProcessSensorData now st d =
          ({ st with
              rl := (insertA st.rl d.deviceID
                (IsAllowed 10 60 ((lookupA st.rl d.deviceID).getD []) now).2)
              devices := (insertA st.devices d.deviceID
                { dev with atype := d.deviceType }) },
           some .quarantinedDevice) := by
        simp [ProcessSensorData, hallow, hvalid, hdev, htype, hqres]
      refine ⟨by rw [key], by rw [key], by rw [key], by rw [key], by rw [key],
        fun x hx => ?_, ?_⟩
      · rw [key]
        exact lookupA_insertA_ne st.devices d.deviceID x _ hx
      · rw [key]
        show lookupA (insertA st.devices d.deviceID
            { dev with atype := d.deviceType }) d.deviceID =
          some (if dev.atype = "" ∧ d.deviceType ≠ "" then
            { dev with atype := d.deviceType } else dev)
        rw [if_pos htype]
        exact lookupA_insertA_same st.devices d.deviceID _
    · have key : ProcessSensorData now st d =
          ({ st with rl := (insertA st.rl d.deviceID
              (IsAllowed 10 60 ((lookupA st.rl d.deviceID).getD []) now).2) },
           some .quarantinedDevice) := by
        simp [ProcessSensorData, hallow, hvalid, hdev, htype, hqres]
      refine ⟨by rw [key], by rw [key], by rw [key], by rw [key], by rw [key],
        fun x hx => by rw [key], ?_⟩
      rw [key, hdev]
      show some dev = some (if dev.atype = "" ∧ d.deviceType ≠ "" then
        { dev with atype := d.deviceType } else dev)
      rw [if_neg htype]


/-- C7 witness: the quarantined concrete device is rejected with the
quarantine error and nothing is persisted. -/
theorem quarantined_rejection_C7_w :
    (ProcessSensorData 10 st7 data7).2 = some .quarantinedDevice ∧
    (ProcessSensorData 10 st7 data7).1.anomalies = st7.anomalies ∧
    (ProcessSensorData 10 st7 data7).1.quarantined = st7.quarantined := by
  have h := quarantined_rejection_C7 10 st7 data7 0
    (by decide) (by decide) (by decide) (by decide)
  exact ⟨h.1, h.2.1, h.2.2.2.1⟩


/-- C7 counterexample: the rejected quarantined reading still modifies the
stored device — its empty type field is filled in from the reading before
the quarantine check fires, so "no state change beyond the error" is not
literally true of the device store. -/
theorem quarantined_rejection_mutated_C7 :
    (ProcessSensorData 10 st0 data0).2 = some .quarantinedDevice ∧
    lookupA st0.devices "d1" = some dev0 ∧
    lookupA (ProcessSensorData 10 st0 data0).1.devices "d1" =
      some { dev0 with atype := "sensor" } ∧
    ({ dev0 with atype := "sensor" } : Device) ≠ dev0 := by
  decide

/-- C10: a message rejected by the outer fixed-window limiter (20 per
minute) makes `IoTService.ProcessSensorData` return success with no anomaly
persisted, no alert, no quarantine, and no sensor-processor run — only the
device's rate-limit record is marked blocked. -/
theorem outer_rate_limit_silent_drop_C10 (now : Int) (st : PState)
    (d : SensorData) (dev : Device)
    (hdev : lookupA st.devices d.deviceID = some dev)
    (hwin : now - dev.rateLimit.lastReset < 60)
    (hcount : MAX_MESSAGES_PER_MINUTE ≤ dev.rateLimit.count) :
    (IoTProcessSensorData now st d).2 = none ∧
    (IoTProcessSensorData now st d).1.anomalies = st.anomalies ∧
    (IoTProcessSensorData now st d).1.anomalyAlerts = st.anomalyAlerts ∧
    (IoTProcessSensorData now st d).1.quarantined = st.quarantined ∧
    (IoTProcessSensorData now st d).1.quarantineAlerts = st.quarantineAlerts ∧
    (IoTProcessSensorData now st d).1.rl = st.rl ∧
    (∀ x, x ≠ d.deviceID →
      lookupA (IoTProcessSensorData now st d).1.devices x =
        lookupA st.devices x) ∧
    lookupA (IoTProcessSensorData now st d).1.devices d.deviceID =
      some { dev with rateLimit := { dev.rateLimit with blocked := true } } := by
  have hc : CheckRateLimit st.devices d.deviceID now =
      (false, insertA st.devices d.deviceID
        { dev with rateLimit := { dev.rateLimit with blocked := true } }) := by
    unfold CheckRateLimit
    rw [hdev]
    dsimp only [Option.getD]
    rw [if_neg (by omega : ¬ (60 ≤ now - dev.rateLimit.lastReset)),
      if_pos hcount]
  have key : IoTProcessSensorData now st d =
      ({ st with devices := (insertA st.devices d.deviceID
          { dev with rateLimit := { dev.rateLimit with blocked := true } }) },
       none) := by
    simp [IoTProcessSensorData, hc]
  refine ⟨by rw [key], by rw [key], by rw [key], by rw [key], by rw [key],
    by rw [key],
    fun x hx => by rw [key]; exact lookupA_insertA_ne st.devices d.deviceID x _ hx,
    by rw [key]; exact lookupA_insertA_same st.devices d.deviceID _⟩

/-- C10 witness: the 21st message inside the window is silently dropped. -/
theorem outer_rate_limit_silent_drop_C10_w :
    (IoTProcessSensorData 10 stC { deviceID := "d1", timestamp := 10 }).2 =
      none ∧
    (IoTProcessSensorData 10 stC { deviceID := "d1", timestamp := 10 }).1.anomalies =
      stC.anomalies := by
  have h := outer_rate_limit_silent_drop_C10 10 stC
    { deviceID := "d1", timestamp := 10 } devC (by decide) (by decide) (by decide)
  exact ⟨h.1, h.2.1⟩
